import Mathlib

/-!
Verification development for the stratos portal-proxy bootstrap
(`main.go` of ashutoshdeshmukh20/stratos).

The Go source is shallowly embedded: pure control flow becomes Lean
functions, side effects (file writes, volume reads, database pings,
process exit) become explicit inputs and observable event lists, and
wall-clock time becomes an explicit natural-number clock measured in
seconds.  Functions whose bodies are not part of the repository
(middleware bodies, `tokens.ReadKey`, the echo router) are modelled from
the specification and marked as such in their doc comments.
-/

namespace Stratos

/-! ## Encryption key acquisition (`getEncryptionKey`, main.go:125-146)

`hex.DecodeString` from the Go standard library decodes pairs of hex
digits left to right and, on a malformed input (invalid digit or odd
length), returns the bytes decoded before the error together with a
non-nil error. -/

/-- Value of a hex digit character, `none` when the character is not a
hex digit (mirrors Go `encoding/hex` digit decoding). -/
def hexDigitVal (c : Char) : Option Nat :=
  if '0' ≤ c ∧ c ≤ '9' then some (c.toNat - '0'.toNat)
  else if 'a' ≤ c ∧ c ≤ 'f' then some (c.toNat - 'a'.toNat + 10)
  else if 'A' ≤ c ∧ c ≤ 'F' then some (c.toNat - 'A'.toNat + 10)
  else none

/-- Bytes produced by Go `hex.DecodeString`: full pairs decoded before
the first malformed pair (or before a trailing lone digit). -/
def hexDecodeList : List Char → List Nat
  | a :: b :: rest =>
    match hexDigitVal a, hexDigitVal b with
    | some x, some y => (16 * x + y) :: hexDecodeList rest
    | _, _ => []
  | _ => []

/-- Whether Go `hex.DecodeString` succeeds (returns a nil error) on the
given character list: even length and hex digits throughout. -/
def hexDecodeOk : List Char → Bool
  | [] => true
  | [_] => false
  | a :: b :: rest => (hexDigitVal a).isSome && (hexDigitVal b).isSome && hexDecodeOk rest

/-- Result of `getEncryptionKey`: a usable key (byte list) or an error,
mirroring the Go `([]byte, error)` pair. -/
inductive KeyResult
  | ok (key : List Nat)
  | keyError
deriving DecidableEq

/-- Configuration inputs consumed by `getEncryptionKey`.
`EncryptionKey` is the inline configuration value (main.go:129).
`volumeKey` is modelled from the spec: `tokens.ReadKey` (main.go:139) is
not part of this repository; per the spec it reads the key from a file
on a shared, operator-provisioned volume, so `some k` stands for a
successful read of key `k` and `none` for an unreadable/missing file. -/
structure KeyConfig where
  EncryptionKey : String
  volumeKey : Option (List Nat)
deriving DecidableEq

/-- Embedding of `getEncryptionKey` (main.go:125-146).  The first
component is the returned `([]byte, error)` pair; the second component
records whether the shared-volume source (`tokens.ReadKey`) was
consulted.  Note the source's inline branch: a hex-decode error is
printed but the decoded bytes are returned with a nil error
(main.go:130-135). -/
def getEncryptionKey (pc : KeyConfig) : KeyResult × Bool :=
  if 0 < pc.EncryptionKey.length then
    (KeyResult.ok (hexDecodeList pc.EncryptionKey.toList), false)
  else
    match pc.volumeKey with
    | some key => (KeyResult.ok key, true)
    | none => (KeyResult.keyError, true)

/-! ## Startup sequence (`main`, main.go:44-123) -/

/-- Outcome of running `main` up to the point where the process either
exits or is serving requests inside `start`. -/
inductive MainOutcome
  | exited (code : Nat)
  | serving
deriving DecidableEq

/-- Outcomes of the fallible startup steps of `main`, in source order.
Each `Bool` is `true` when the corresponding call returns a nil error:
`portalConfigOk` for `loadPortalConfig` (main.go:50), `vcsClientsOk` for
`getVCSClients` (main.go:70), `connPoolOk` for `initConnPool`
(main.go:77), `sessionStoreOk` for `initSessionStore` (main.go:89) and
`startOk` for `start` (main.go:119).  The encryption-key step runs the
embedded `getEncryptionKey` on `keyConfig`. -/
structure StartupEnv where
  portalConfigOk : Bool
  keyConfig : KeyConfig
  vcsClientsOk : Bool
  connPoolOk : Bool
  sessionStoreOk : Bool
  startOk : Bool
deriving DecidableEq

/-- Embedding of the error checks of `main` (main.go:44-123).  Each
`os.Exit(1)` branch becomes `MainOutcome.exited 1`.  A `getVCSClients`
error is only logged (main.go:70-73): the flow continues regardless of
`vcsClientsOk`. -/
def mainRun (env : StartupEnv) : MainOutcome :=
  if env.portalConfigOk = false then MainOutcome.exited 1
  else
    match (getEncryptionKey env.keyConfig).1 with
    | KeyResult.keyError => MainOutcome.exited 1
    | KeyResult.ok _ =>
      if env.connPoolOk = false then MainOutcome.exited 1
      else if env.sessionStoreOk = false then MainOutcome.exited 1
      else if env.startOk = false then MainOutcome.exited 1
      else MainOutcome.serving

/-! ## Database readiness loop (`initConnPool`, main.go:148-189)

The loop is embedded with an explicit clock in seconds.  `pingOk i` is
whether the `i`-th call to `datastore.Ping` succeeds and `pingDur i` how
many seconds it takes.  One loop iteration, exactly as in the source:
set `timeout := now + 10 minutes` (main.go:169 — note this happens at
the top of EVERY iteration), ping, break on success, bail out when
`timeout.Sub(time.Now()) < 0` (main.go:179), otherwise sleep one second
and retry.  The `fuel` argument bounds the number of iterations we
unfold, so nontermination of the Go loop appears as `outOfFuel` for
every fuel value. -/

/-- TimeoutBoundary (main.go:27): minutes to wait for the database,
per its comment "the amount of time we'll wait for the database server
to come online before we bail out". -/
def TimeoutBoundary : Nat := 10

/-- Result of the readiness loop: success or timeout (each carrying the
clock value reached, in seconds), or fuel exhausted. -/
inductive PollResult
  | success (t : Nat)
  | timedOut (t : Nat)
  | outOfFuel
deriving DecidableEq

/-- Embedding of the `for` loop of `initConnPool` (main.go:166-186).
The timeout boundary `t + 60 * TimeoutBoundary` is recomputed at the
top of each iteration, exactly as in the source. -/
def pollLoop (pingOk : Nat → Bool) (pingDur : Nat → Nat) : Nat → Nat → Nat → PollResult
  | 0, _, _ => PollResult.outOfFuel
  | fuel + 1, i, t =>
    let tAfterPing := t + pingDur i
    if pingOk i then PollResult.success tAfterPing
    else if t + 60 * TimeoutBoundary < tAfterPing then PollResult.timedOut tAfterPing
    else pollLoop pingOk pingDur fuel (i + 1) (tAfterPing + 1)

/-- Modelled from the spec: the readiness loop as the spec (and the
source's own comments) describe it, with the 10-minute wall-clock
boundary established once, before the loop, rather than re-established
each iteration. -/
def specPollLoop (pingOk : Nat → Bool) (pingDur : Nat → Nat) (deadline : Nat) :
    Nat → Nat → Nat → PollResult
  | 0, _, _ => PollResult.outOfFuel
  | fuel + 1, i, t =>
    let tAfterPing := t + pingDur i
    if pingOk i then PollResult.success tAfterPing
    else if deadline < tAfterPing then PollResult.timedOut tAfterPing
    else specPollLoop pingOk pingDur deadline fuel (i + 1) (tAfterPing + 1)

/-- Modelled from the spec: the Readiness Guard with the boundary fixed
at entry (`t0 + 10` minutes). -/
def specReadinessGuard (pingOk : Nat → Bool) (pingDur : Nat → Nat) (fuel t0 : Nat) : PollResult :=
  specPollLoop pingOk pingDur (t0 + 60 * TimeoutBoundary) fuel 0 t0

/-! ## Signal-triggered shutdown (`cleanup`, main.go:33-42 and the
signal goroutine, main.go:108-114) -/

/-- Observable shutdown steps.  `startSessionCleanup` records that
`ss.Cleanup(...)` starts a fresh cleanup ticker (its result is passed
straight to `StopCleanup`, main.go:40). -/
inductive ShutdownEvent
  | stopAcceptingConnections
  | closeConnPool
  | closeSessionStore
  | startSessionCleanup
  | stopSessionCleanup
  | exitProcess (code : Nat)
deriving DecidableEq

/-- Embedding of `cleanup` (main.go:33-42): close the database
connection pool, close the session store, then start and immediately
stop a session-cleanup ticker.  The error returned by `dbc.Close()` is
ignored by the source, so the trace does not depend on `closePoolErr`. -/
def cleanup (_closePoolErr : Bool) : List ShutdownEvent :=
  [ShutdownEvent.closeConnPool, ShutdownEvent.closeSessionStore,
   ShutdownEvent.startSessionCleanup, ShutdownEvent.stopSessionCleanup]

/-- Embedding of the signal-handler goroutine (main.go:110-114): on an
interrupt/SIGTERM it runs `cleanup` and then calls `os.Exit(1)`. -/
def signalHandlerTrace (closePoolErr : Bool) : List ShutdownEvent :=
  cleanup closePoolErr ++ [ShutdownEvent.exitProcess 1]

/-! ## TLS certificate materialization (`createTempCertFiles`,
main.go:227-252) -/

/-- Result of `createTempCertFiles`: the chosen certificate and key
file paths, or a write error. -/
inductive CertResult
  | ok (certFile certKeyFile : String)
  | fileError
deriving DecidableEq

/-- A successful file write performed by `createTempCertFiles`: target
name, content and unix mode. -/
structure WriteEvent where
  name : String
  content : String
  mode : Nat
deriving DecidableEq

/-- Inputs of `createTempCertFiles`: whether `os.Stat` finds the two
developer files under `dev-certs/` (main.go:236-237), whether each
`ioutil.WriteFile` call succeeds, and the configured TLS material
(`pc.TLSCert`, `pc.TLSCertKey`). -/
structure CertEnv where
  devCertExists : Bool
  devKeyExists : Bool
  writeCertOk : Bool
  writeKeyOk : Bool
  tlsCert : String
  tlsCertKey : String
deriving DecidableEq

/-- Embedding of `createTempCertFiles` (main.go:227-252).  The second
component lists the successful writes, in order. -/
def createTempCertFiles (env : CertEnv) : CertResult × List WriteEvent :=
  if env.devCertExists && env.devKeyExists then
    (CertResult.ok "dev-certs/pproxy.crt" "dev-certs/pproxy.key", [])
  else if env.writeCertOk = false then
    (CertResult.fileError, [])
  else if env.writeKeyOk = false then
    (CertResult.fileError, [WriteEvent.mk "pproxy.crt" env.tlsCert 384])
  else
    (CertResult.ok "pproxy.crt" "pproxy.key",
     [WriteEvent.mk "pproxy.crt" env.tlsCert 384,
      WriteEvent.mk "pproxy.key" env.tlsCertKey 384])

/-! ## HTTP surface: middleware chain and route registration
(`start`, main.go:275-302, and `registerRoutes`, main.go:304-368)

The echo router of this vintage is modelled as follows, matching the
behaviour the source relies on (see its comment at main.go:357-358):
root-level middleware added with `e.Use` runs, in order, before any
route's own middleware; a group snapshots its middleware list into each
route at registration time, so `group.Use` only affects routes
registered after the call; a subgroup copies its parent group's
middleware list at creation.  `adminGroup := sessionGroup`
(main.go:359) copies a pointer in Go, so `adminGroup.Use` extends the
session group's list — routes registered afterwards carry both. -/

/-- Request interceptors installed by `start` and `registerRoutes`. -/
inductive MW
  | sessionCleanup
  | logger
  | recover
  | cors
  | errorLogging
  | retryAfterUpgrade
  | session
  | stackatoAdmin
deriving DecidableEq

/-- Route handlers referenced by `registerRoutes` (their bodies live
outside this repository; the model tags the response with the handler
reached). -/
inductive Handler
  | loginToUAA
  | logout
  | loginToCNSI
  | logoutOfCNSI
  | verifySession
  | listCNSIs
  | listRegisteredCNSIs
  | appStream
  | stackatoInfo
  | getVersions
  | handleVCSAuth
  | handleVCSAuthCallback
  | listVCSClients
  | verifyVCSOAuthToken
  | vcsProxy
  | proxy
  | registerHCFCluster
  | registerHCECluster
  | unregisterCluster
deriving DecidableEq

/-- HTTP methods used by `registerRoutes`. -/
inductive Method
  | GET
  | POST
  | PUT
  | DELETE
deriving DecidableEq

/-- One segment of a route pattern: a literal, a `:param` capture, or
the `*` catch-all. -/
inductive Seg
  | lit (s : String)
  | param
  | splat
deriving DecidableEq

/-- A registered route: method (`none` for echo's `Any`), full path
pattern, middleware snapshot taken at registration, and handler. -/
structure RouteEntry where
  method : Option Method
  pat : List Seg
  mw : List MW
  handler : Handler
deriving DecidableEq

/-- The echo instance: root middleware in `Use` order plus the route
table in registration order. -/
structure EchoM where
  rootMW : List MW
  routes : List RouteEntry
deriving DecidableEq

def EchoM.empty : EchoM := EchoM.mk [] []

/-- Model of `e.Use`: append to the root middleware list. -/
def EchoM.use (e : EchoM) (m : MW) : EchoM := EchoM.mk (e.rootMW ++ [m]) e.routes

/-- Model of route registration directly on the echo instance. -/
def EchoM.add (e : EchoM) (method : Option Method) (pat : List Seg) (mw : List MW)
    (h : Handler) : EchoM :=
  EchoM.mk e.rootMW (e.routes ++ [RouteEntry.mk method pat mw h])

/-- A route group: accumulated path base and middleware list. -/
structure GroupM where
  base : List Seg
  mw : List MW

/-- Model of `group.Use`: append to the group's middleware list. -/
def GroupM.use (g : GroupM) (m : MW) : GroupM := GroupM.mk g.base (g.mw ++ [m])

/-- Model of `group.Group`: a subgroup copies the parent's base path
and current middleware list. -/
def GroupM.subGroup (g : GroupM) (segs : List Seg) : GroupM :=
  GroupM.mk (g.base ++ segs) g.mw

/-- Model of registering a route on a group: the group's current
middleware list is snapshotted into the route. -/
def groupAdd (e : EchoM) (g : GroupM) (method : Option Method) (pat : List Seg)
    (h : Handler) : EchoM :=
  e.add method (g.base ++ pat) g.mw h

/-- Embedding of `registerRoutes` (main.go:304-368), call for call and
in source order.  `adminGroup := sessionGroup` aliases the session
group, so the `stackatoAdmin` `Use` extends the snapshot used by the
three routes registered below it — and only those, since no session
route is registered afterwards. -/
def registerRoutes (e : EchoM) : EchoM :=
  let e := e.add (some Method.POST)
    [Seg.lit "v1", Seg.lit "auth", Seg.lit "login", Seg.lit "uaa"] [] Handler.loginToUAA
  let e := e.add (some Method.POST)
    [Seg.lit "v1", Seg.lit "auth", Seg.lit "logout"] [] Handler.logout
  let sessionGroup : GroupM := GroupM.mk [Seg.lit "v1"] []
  let sessionGroup := sessionGroup.use MW.session
  let e := groupAdd e sessionGroup (some Method.POST)
    [Seg.lit "auth", Seg.lit "login", Seg.lit "cnsi"] Handler.loginToCNSI
  let e := groupAdd e sessionGroup (some Method.POST)
    [Seg.lit "auth", Seg.lit "logout", Seg.lit "cnsi"] Handler.logoutOfCNSI
  let e := groupAdd e sessionGroup (some Method.GET)
    [Seg.lit "auth", Seg.lit "session", Seg.lit "verify"] Handler.verifySession
  let e := groupAdd e sessionGroup (some Method.GET)
    [Seg.lit "cnsis"] Handler.listCNSIs
  let e := groupAdd e sessionGroup (some Method.GET)
    [Seg.lit "cnsis", Seg.lit "registered"] Handler.listRegisteredCNSIs
  let e := groupAdd e sessionGroup (some Method.GET)
    [Seg.param, Seg.lit "apps", Seg.param, Seg.lit "stream"] Handler.appStream
  let e := groupAdd e sessionGroup (some Method.GET)
    [Seg.lit "stackato", Seg.lit "info"] Handler.stackatoInfo
  let e := groupAdd e sessionGroup (some Method.GET)
    [Seg.lit "version"] Handler.getVersions
  let vcsGroup := sessionGroup.subGroup [Seg.lit "vcs"]
  let e := groupAdd e vcsGroup (some Method.GET)
    [Seg.lit "oauth", Seg.lit "auth"] Handler.handleVCSAuth
  let e := groupAdd e vcsGroup (some Method.GET)
    [Seg.lit "oauth", Seg.lit "callback"] Handler.handleVCSAuthCallback
  let e := groupAdd e vcsGroup (some Method.GET)
    [Seg.lit "clients"] Handler.listVCSClients
  let e := groupAdd e vcsGroup (some Method.GET)
    [Seg.lit "oauth", Seg.lit "verify"] Handler.verifyVCSOAuthToken
  let e := groupAdd e vcsGroup none [Seg.splat] Handler.vcsProxy
  let proxyGroup := sessionGroup.subGroup [Seg.lit "proxy"]
  let e := groupAdd e proxyGroup none [Seg.splat] Handler.proxy
  let adminGroup := sessionGroup
  let adminGroup := adminGroup.use MW.stackatoAdmin
  let e := groupAdd e adminGroup (some Method.POST)
    [Seg.lit "register", Seg.lit "hcf"] Handler.registerHCFCluster
  let e := groupAdd e adminGroup (some Method.POST)
    [Seg.lit "register", Seg.lit "hce"] Handler.registerHCECluster
  let e := groupAdd e adminGroup (some Method.POST)
    [Seg.lit "unregister"] Handler.unregisterCluster
  e

/-- Embedding of the root middleware installation of `start`
(main.go:280-289), in `Use` order. -/
def startEcho : EchoM :=
  (((((EchoM.empty.use MW.sessionCleanup).use MW.logger).use MW.recover).use
    MW.cors).use MW.errorLogging).use MW.retryAfterUpgrade

/-- The fully wired application: root middleware from `start`, routes
from `registerRoutes`. -/
def theApp : EchoM := registerRoutes startEcho

/-! ### Request semantics -/

/-- Per-request facts the middleware bodies consult: whether the
process is mid-upgrade, whether the caller's session resolves to a valid
session, and whether the attached identity claim carries the admin
flag. -/
structure Ctx where
  upgradeInProgress : Bool
  sessionValid : Bool
  isAdmin : Bool
deriving DecidableEq

/-- Responses distinguished by the model: a short-circuit from a
middleware, or the request reaching its route handler. -/
inductive Response
  | retryAfter
  | unauthorized
  | forbidden
  | handled (h : Handler)
deriving DecidableEq

/-- Modelled from the spec: the middleware bodies live outside this
repository.  Per spec section 4.6, the session-validity interceptor
answers `Unauthorized` for a missing/expired session and otherwise
passes the request on with the identity claim attached; the post-upgrade
guard answers a retry-after status while the process is mid-upgrade; the
admin guard answers `Forbidden` unless the identity claim carries the
admin flag.  Session cleanup, logging, recovery, CORS and error logging
do not short-circuit an ordinary request. -/
def runMW : MW → Ctx → Option Response
  | MW.retryAfterUpgrade, c =>
    if c.upgradeInProgress then some Response.retryAfter else none
  | MW.session, c =>
    if c.sessionValid then none else some Response.unauthorized
  | MW.stackatoAdmin, c =>
    if c.isAdmin then none else some Response.forbidden
  | _, _ => none

/-- Run a middleware chain: the first interceptor that short-circuits
determines the response, otherwise the handler is reached. -/
def runChain : List MW → Ctx → Handler → Response
  | [], _, h => Response.handled h
  | m :: ms, c, h =>
    match runMW m c with
    | some resp => resp
    | none => runChain ms c h

/-- Whether a route pattern matches a concrete path (list of
segments): literals match themselves, `:param` any one segment, `*` any
remainder. -/
def matchSegs : List Seg → List String → Bool
  | [], [] => true
  | [Seg.splat], _ => true
  | Seg.lit s :: ps, x :: xs => decide (s = x) && matchSegs ps xs
  | Seg.param :: ps, _ :: xs => matchSegs ps xs
  | _, _ => false

/-- Whether a route's method accepts the request's method (`none` is
echo's `Any`). -/
def methodMatches : Option Method → Method → Bool
  | none, _ => true
  | some m, mreq => decide (m = mreq)

/-- Route lookup.  First match in registration order; on this route
table that coincides with echo's static-over-catch-all resolution for
every path used below. -/
def findRoute (e : EchoM) (m : Method) (path : List String) : Option RouteEntry :=
  e.routes.find? (fun r => methodMatches r.method m && matchSegs r.pat path)

/-- Dispatch a request: find the route, then run the root middleware
followed by the route's middleware snapshot, ending at its handler. -/
def dispatch (e : EchoM) (m : Method) (path : List String) (c : Ctx) : Option Response :=
  (findRoute e m path).map (fun r => runChain (e.rootMW ++ r.mw) c r.handler)

/-! ## Claims -/

/-- C1: the claim says the readiness loop of `initConnPool` terminates
with a timeout error once the 10-minute wall-clock boundary elapses even
when the liveness check never succeeds.  The code instead re-establishes
the boundary at the top of every iteration (main.go:169), so with
fast-failing pings the bail-out test at main.go:179 can never fire: the
first conjunct shows that for pings that always fail instantly the loop
returns for NO iteration bound whatsoever (it polls forever), while the
second conjunct shows the intended behaviour — boundary fixed once at
entry, as the source's own comments and the spec describe — does time
out, 601 seconds of wall-clock time into the run. -/
theorem c1_readiness_loop_never_times_out :
    (∀ fuel i t, pollLoop (fun _ => false) (fun _ => 0) fuel i t = PollResult.outOfFuel)
    ∧ specReadinessGuard (fun _ => false) (fun _ => 0) 602 0 = PollResult.timedOut 601 := by
  constructor
  · intro fuel
    induction fuel with
    | zero => intro i t; rfl
    | succ n ih =>
      intro i t
      have hc : ¬ (t + 60 * TimeoutBoundary < t) := by omega
      simpa [pollLoop, hc] using ih (i + 1) (t + 1)
  · set_option maxRecDepth 4000 in decide

/-- C2: the claim says a malformed inline encryption key makes
`getEncryptionKey` return an error and startup exit non-zero.  At the
concrete input `EncryptionKey = "zz"` (not valid hex) the code prints
the hex-decode error but returns the partially decoded bytes — here the
empty key — with a nil error (main.go:130-135), and `main` continues all
the way to serving requests instead of exiting. -/
theorem c2_malformed_inline_key_is_accepted :
    getEncryptionKey (KeyConfig.mk "zz" none) = (KeyResult.ok [], false)
    ∧ mainRun (StartupEnv.mk true (KeyConfig.mk "zz" none) true true true true)
        = MainOutcome.serving := by
  decide

/-- C3 counterexample: the claim asserts `Forbidden` for every non-admin
caller of the register routes "regardless of whether the caller's
session is valid".  A non-admin request with an invalid session to
`POST /v1/register/hcf` is short-circuited by the session-validity
interceptor, which runs first, and receives `Unauthorized`, not
`Forbidden`. -/
theorem c3_counterexample_invalid_session_unauthorized :
    dispatch theApp Method.POST ["v1", "register", "hcf"] (Ctx.mk false false false)
      = some Response.unauthorized
    ∧ some Response.unauthorized ≠ some Response.forbidden := by
  decide

/-- C3 (amended): for every request by an identity without the admin
claim whose session is valid, made while the process is not mid-upgrade,
each of the cluster register and unregister operations responds
`Forbidden`; with an invalid session the response is `Unauthorized`
instead. -/
theorem c3_nonadmin_register_forbidden (u s a : Bool)
    (hu : u = false) (hs : s = true) (ha : a = false) :
    dispatch theApp Method.POST ["v1", "register", "hcf"] (Ctx.mk u s a)
      = some Response.forbidden
    ∧ dispatch theApp Method.POST ["v1", "register", "hce"] (Ctx.mk u s a)
      = some Response.forbidden
    ∧ dispatch theApp Method.POST ["v1", "unregister"] (Ctx.mk u s a)
      = some Response.forbidden := by
  subst hu; subst hs; subst ha; decide

/-- C3 witness: the amended theorem instantiated at the concrete
context (no upgrade, valid session, no admin claim). -/
theorem c3_nonadmin_register_forbidden_witness :
    dispatch theApp Method.POST ["v1", "register", "hcf"] (Ctx.mk false true false)
      = some Response.forbidden
    ∧ dispatch theApp Method.POST ["v1", "register", "hce"] (Ctx.mk false true false)
      = some Response.forbidden
    ∧ dispatch theApp Method.POST ["v1", "unregister"] (Ctx.mk false true false)
      = some Response.forbidden :=
  c3_nonadmin_register_forbidden false true false rfl rfl rfl

/-- C4: the admin guard middleware is attached to exactly the three
registry-mutation routes `/v1/register/hcf`, `/v1/register/hce` and
`/v1/unregister` (first conjunct, over the whole route table), and every
other session-gated route serves a valid-session, non-admin,
non-upgrading request by reaching its handler, with no admin check in
the chain (second conjunct). -/
theorem c4_admin_guard_scope (u s a : Bool)
    (hu : u = false) (hs : s = true) (ha : a = false) :
    (∀ r ∈ theApp.routes, (MW.stackatoAdmin ∈ r.mw ↔
        r.pat ∈ [[Seg.lit "v1", Seg.lit "register", Seg.lit "hcf"],
                 [Seg.lit "v1", Seg.lit "register", Seg.lit "hce"],
                 [Seg.lit "v1", Seg.lit "unregister"]]))
    ∧ (∀ r ∈ theApp.routes, MW.session ∈ r.mw → MW.stackatoAdmin ∉ r.mw →
        runChain (theApp.rootMW ++ r.mw) (Ctx.mk u s a) r.handler
          = Response.handled r.handler) := by
  subst hu; subst hs; subst ha; decide

/-- C4 witness: the theorem applied at the concrete context and at the
session-gated `GET /v1/cnsis` route. -/
theorem c4_admin_guard_scope_witness :
    runChain (theApp.rootMW ++ [MW.session]) (Ctx.mk false true false) Handler.listCNSIs
      = Response.handled Handler.listCNSIs :=
  (c4_admin_guard_scope false true false rfl rfl rfl).2
    (RouteEntry.mk (some Method.GET) [Seg.lit "v1", Seg.lit "cnsis"] [MW.session]
      Handler.listCNSIs)
    (by decide) (by decide) (by decide)

/-- C5 counterexample: the claim asserts every malformed configuration
input, including the per-VCS-provider client configuration, is a fatal
startup error.  A startup in which only `getVCSClients` fails (all other
steps succeed; the inline key "abcd" is valid hex) logs the error
(main.go:70-73), never exits, and proceeds to serve requests. -/
theorem c5_counterexample_vcs_error_not_fatal :
    mainRun (StartupEnv.mk true (KeyConfig.mk "abcd" none) false true true true)
      = MainOutcome.serving
    ∧ MainOutcome.serving ≠ MainOutcome.exited 1 := by
  decide

/-- C5 (amended): a failure of `loadPortalConfig`, of encryption-key
acquisition, of the database connection pool, of the session store, or
of `start` is fatal (the process exits with code 1); a VCS client
configuration error, by contrast, is only logged and startup
continues. -/
theorem c5_non_vcs_config_errors_fatal (env : StartupEnv) :
    (env.portalConfigOk = false → mainRun env = MainOutcome.exited 1)
    ∧ ((getEncryptionKey env.keyConfig).1 = KeyResult.keyError →
        mainRun env = MainOutcome.exited 1)
    ∧ (env.connPoolOk = false → mainRun env = MainOutcome.exited 1)
    ∧ (env.sessionStoreOk = false → mainRun env = MainOutcome.exited 1)
    ∧ (env.startOk = false → mainRun env = MainOutcome.exited 1) := by
  obtain ⟨p, kc, v, cp, ss, st⟩ := env
  cases p <;> cases cp <;> cases ss <;> cases st <;>
    cases hk : (getEncryptionKey kc).1 <;> simp [mainRun, hk]

/-- C5 witness: the amended theorem applied to a startup whose portal
configuration fails to load. -/
theorem c5_non_vcs_config_errors_fatal_witness :
    mainRun (StartupEnv.mk false (KeyConfig.mk "" none) true true true true)
      = MainOutcome.exited 1 :=
  (c5_non_vcs_config_errors_fatal
    (StartupEnv.mk false (KeyConfig.mk "" none) true true true true)).1 rfl

/-- C6 counterexample: the claim asserts session validity is checked
before the post-upgrade guard decides.  A request to the session-gated
`GET /v1/cnsis` with an invalid session, made while the process is
mid-upgrade, receives the retry-after response — were the session check
first, it would have short-circuited with `Unauthorized`. -/
theorem c6_counterexample_upgrade_guard_decides_first :
    dispatch theApp Method.GET ["v1", "cnsis"] (Ctx.mk true false false)
      = some Response.retryAfter
    ∧ Response.retryAfter ≠ Response.unauthorized := by
  decide

/-- C6 (amended): the post-upgrade guard is installed as root-level
middleware (main.go:289) and therefore runs before the session-validity
interceptor: mid-upgrade, every registered route answers retry-after
regardless of session validity or admin claim; when not mid-upgrade, an
invalid session on any session-gated route yields `Unauthorized` before
any admin check or handler runs. -/
theorem c6_upgrade_guard_before_session_check :
    (∀ s a : Bool, ∀ r ∈ theApp.routes,
        runChain (theApp.rootMW ++ r.mw) (Ctx.mk true s a) r.handler
          = Response.retryAfter)
    ∧ (∀ a : Bool, ∀ r ∈ theApp.routes, MW.session ∈ r.mw →
        runChain (theApp.rootMW ++ r.mw) (Ctx.mk false false a) r.handler
          = Response.unauthorized) := by
  decide

/-- C6 witness: the amended theorem applied at the session-gated
`GET /v1/cnsis` route with an invalid session and no upgrade. -/
theorem c6_upgrade_guard_before_session_check_witness :
    runChain (theApp.rootMW ++ [MW.session]) (Ctx.mk false false false) Handler.listCNSIs
      = Response.unauthorized :=
  c6_upgrade_guard_before_session_check.2 false
    (RouteEntry.mk (some Method.GET) [Seg.lit "v1", Seg.lit "cnsis"] [MW.session]
      Handler.listCNSIs)
    (by decide) (by decide)

/-- C7 counterexample: the claim asserts shutdown performs, in exactly
this order: stop accepting new connections, stop the recurring-cleanup
goroutine, close the connection pool, close the session store's backing
connection.  The actual trace differs from that order, and in fact no
stop-accepting-connections step occurs at all. -/
theorem c7_counterexample_shutdown_order :
    signalHandlerTrace false ≠
      [ShutdownEvent.stopAcceptingConnections, ShutdownEvent.stopSessionCleanup,
       ShutdownEvent.closeConnPool, ShutdownEvent.closeSessionStore,
       ShutdownEvent.exitProcess 1]
    ∧ ShutdownEvent.stopAcceptingConnections ∉ signalHandlerTrace false := by
  decide

/-- C7 (amended): on an interrupt or termination signal the process
closes the persistent-store connection pool first, then closes the
Session Store's backing connection, then starts a fresh session-cleanup
scheduler and immediately stops it, and then exits with status 1; it
never stops accepting new connections before exiting, and the order does
not depend on whether closing the pool reports an error. -/
theorem c7_shutdown_actual_order :
    ∀ closePoolErr : Bool,
      signalHandlerTrace closePoolErr =
        [ShutdownEvent.closeConnPool, ShutdownEvent.closeSessionStore,
         ShutdownEvent.startSessionCleanup, ShutdownEvent.stopSessionCleanup,
         ShutdownEvent.exitProcess 1] := by
  decide

/-- C8: whenever the inline `EncryptionKey` configuration value is
non-empty, `getEncryptionKey` returns the hex-decode result with a nil
error and never consults the shared-volume key source — including when
hex decoding fails. -/
theorem c8_inline_key_shadows_volume (pc : KeyConfig)
    (h : 0 < pc.EncryptionKey.length) :
    getEncryptionKey pc = (KeyResult.ok (hexDecodeList pc.EncryptionKey.toList), false) := by
  unfold getEncryptionKey
  rw [if_pos h]

/-- C8 witness: the theorem applied at the malformed inline value "zz"
with a readable volume key available — the volume is still not
consulted and the (empty) decode result is returned without error. -/
theorem c8_inline_key_shadows_volume_witness :
    0 < ("zz" : String).length
    ∧ getEncryptionKey (KeyConfig.mk "zz" (some [1, 2])) = (KeyResult.ok [], false) :=
  ⟨by decide,
   (c8_inline_key_shadows_volume (KeyConfig.mk "zz" (some [1, 2])) (by decide)).trans
     (by decide)⟩

/-- C9: signal-triggered shutdown always ends with `os.Exit(1)`: the
final event of the signal-handler trace is an exit with code 1, and no
exit with code 0 ever occurs, whether or not closing the pool reported
an error — a graceful stop is indistinguishable from a failure by exit
status. -/
theorem c9_signal_shutdown_exits_one :
    ∀ closePoolErr : Bool,
      (signalHandlerTrace closePoolErr).getLast? = some (ShutdownEvent.exitProcess 1)
      ∧ ShutdownEvent.exitProcess 0 ∉ signalHandlerTrace closePoolErr := by
  decide

/-- C10: if both developer files `dev-certs/pproxy.crt` and
`dev-certs/pproxy.key` exist, `createTempCertFiles` returns their paths
and writes nothing; otherwise, when both writes succeed, it writes
exactly the configured certificate to `pproxy.crt` and the configured
key to `pproxy.key`, each with mode 0600 (384), touching no other
file. -/
theorem c10_cert_file_selection (env : CertEnv) :
    (env.devCertExists = true → env.devKeyExists = true →
        createTempCertFiles env
          = (CertResult.ok "dev-certs/pproxy.crt" "dev-certs/pproxy.key", []))
    ∧ (¬(env.devCertExists = true ∧ env.devKeyExists = true) →
        env.writeCertOk = true → env.writeKeyOk = true →
        createTempCertFiles env =
          (CertResult.ok "pproxy.crt" "pproxy.key",
           [WriteEvent.mk "pproxy.crt" env.tlsCert 384,
            WriteEvent.mk "pproxy.key" env.tlsCertKey 384])) := by
  obtain ⟨dc, dk, wc, wk, tc, tk⟩ := env
  cases dc <;> cases dk <;> cases wc <;> cases wk <;> simp [createTempCertFiles]

/-- C10 witness: the theorem applied where both developer files exist —
their paths are returned and no file is written. -/
theorem c10_cert_file_selection_witness :
    createTempCertFiles (CertEnv.mk true true true true "CERTDATA" "KEYDATA")
      = (CertResult.ok "dev-certs/pproxy.crt" "dev-certs/pproxy.key", []) :=
  (c10_cert_file_selection (CertEnv.mk true true true true "CERTDATA" "KEYDATA")).1 rfl rfl

end Stratos
